import Mathlib

/-!
Shallow embedding of the FrankerFaceZ Link-Worker (the Cloudflare Worker
entry point `src/index.ts` together with its `utilities` module):
response formatting, analytics event construction, request routing, the
resolve handler, the in-flight deduplication map and the D1-backed cache
adapter.  Machine integers do not overflow in any embedded computation,
so numbers are modelled as `Nat`.  Fallible external operations are
modelled as `Except`-valued oracles.
-/

namespace LinkWorker

/-- Header records are modelled as association lists with JavaScript
object semantics: lookup returns the first matching entry, assignment
replaces the first matching entry in place or appends a fresh one. -/
abbrev HeaderMap := List (String × String)

def getH (hs : HeaderMap) (k : String) : Option String :=
  (hs.find? (fun p => p.1 == k)).map (fun p => p.2)

def setH : HeaderMap → String → String → HeaderMap
  | [], k, v => [(k, v)]
  | p :: rest, k, v =>
    if p.1 == k then (k, v) :: rest else p :: setH rest k v

/-- JavaScript truthiness of `hs[k]` for a string-valued record: the key
is present and its value is not the empty string. -/
def truthyH (hs : HeaderMap) (k : String) : Bool :=
  match getH hs k with
  | some v => v != ""
  | none => false

/-- Modelled from the spec: the source imports `GLOBAL_HEADERS` from
`./constants`, a file that is not part of the analyzed source.  Per the
spec (section 4.6) it is the fixed baseline header set consisting of the
CORS allow-origin, allow-methods and allow-headers entries. -/
def GLOBAL_HEADERS : HeaderMap :=
  [("Access-Control-Allow-Origin", "*"),
   ("Access-Control-Allow-Methods", "GET, OPTIONS"),
   ("Access-Control-Allow-Headers", "*")]

/-- One visited-URL record of a `ResolveResult`.  The field `flagged`
embeds the per-URL safety flag of the source. -/
structure VisitedUrl where
  url : String
  resolverName : Option String
  flagged : Bool
  shortened : Bool
deriving DecidableEq

/-- The part of `@ffz/link-service`'s `ResolveResult` this worker reads:
a status code, the safety flag (field `flagged` here), the list of
visited URLs (absent when the resolver produced none) and the error
payload of an `ErrorDocument` (absent on success). -/
structure ResolveResult where
  status : Nat
  flagged : Bool
  urls : Option (List VisitedUrl)
  errorMsg : Option String
deriving DecidableEq

/-- The JSON payload a response body can carry: a serialized
`ResolveResult`, a structured error object `\x7bstatus, error\x7d`, or one of
the static informational documents (tagged by route). -/
inductive JPayload where
  | result (r : ResolveResult)
  | errObj (status : Nat) (errorMsg : String)
  | fixed (tag : String)
deriving DecidableEq

/-- An HTTP response as built by this worker. -/
structure Resp where
  status : Nat
  headers : HeaderMap
  body : Option JPayload
deriving DecidableEq

/-- Embeds `SimpleResponseInit` from `utilities`: optional status and headers. -/
structure SimpleResponseInit where
  status : Option Nat := none
  headers : Option HeaderMap := none
deriving DecidableEq

/-- The header-merging loop shared by `responseJSON` and
`responseRedirect`: for each `GLOBAL_HEADERS` entry, the truthiness test
`! opts.headers[key]` admits the global value exactly when the caller
record has no entry for the key or maps it to the empty string. -/
def mergeGlobal (hs : HeaderMap) : HeaderMap :=
  GLOBAL_HEADERS.foldl
    (fun acc p => if truthyH acc p.1 then acc else setH acc p.1 p.2) hs

/-- Embeds `responseJSON` from `utilities`: fill in missing headers from
`GLOBAL_HEADERS`, then unconditionally set `Content-Type`, and build the
response with the caller status (default 200). -/
def responseJSON (obj : JPayload) (opts : SimpleResponseInit := {}) : Resp :=
  let hs := match opts.headers with
    | none => GLOBAL_HEADERS
    | some hs => mergeGlobal hs
  let hs := setH hs "Content-Type" "application/json;charset=UTF-8"
  { status := opts.status.getD 200, headers := hs, body := some obj }

/-- Embeds `responseRedirect` from `utilities`: same header merge, then set the
`Location` header and the redirect status (default 302), empty body. -/
def responseRedirect (url : String) (code : Nat := 302)
    (opts : SimpleResponseInit := {}) : Resp :=
  let hs := match opts.headers with
    | none => GLOBAL_HEADERS
    | some hs => mergeGlobal hs
  let hs := setH hs "Location" url
  { status := code, headers := hs, body := none }

/-- Embeds `responseError` from `utilities`: a JSON error body
`\x7bstatus, error: msg\x7d` whose status mirrors the HTTP status. -/
def responseError (status : Nat) (msg : String) : Resp :=
  responseJSON (.errObj status msg) { status := some status }

/-- An uppercase hexadecimal digit. -/
def hexDigit (n : Nat) : Char :=
  if n < 10 then Char.ofNat (48 + n) else Char.ofNat (55 + n)

/-- The UTF-8 byte sequence of one character. -/
def utf8Bytes (c : Char) : List Nat :=
  let n := c.toNat
  if n < 128 then [n]
  else if n < 2048 then [192 + n / 64, 128 + n % 64]
  else if n < 65536 then [224 + n / 4096, 128 + n / 64 % 64, 128 + n % 64]
  else [240 + n / 262144, 128 + n / 4096 % 64, 128 + n / 64 % 64, 128 + n % 64]

/-- The characters `encodeURIComponent` leaves unescaped. -/
def isUriUnescaped (c : Char) : Bool :=
  (decide ('A' ≤ c) && decide (c ≤ 'Z')) ||
  (decide ('a' ≤ c) && decide (c ≤ 'z')) ||
  (decide ('0' ≤ c) && decide (c ≤ '9')) ||
  ['-', '_', '.', '!', '~', '*', Char.ofNat 39, '(', ')'].contains c

/-- JavaScript `encodeURIComponent`: percent-encode every character that
is not URI-unescaped, using the UTF-8 bytes in uppercase hex. -/
def encodeURIComponent (s : String) : String :=
  String.mk (s.data.foldr (fun c acc =>
    if isUriUnescaped c then c :: acc
    else (utf8Bytes c).foldr
      (fun b acc2 => '%' :: hexDigit (b / 16) :: hexDigit (b % 16) :: acc2)
      acc) [])

/-- The cache key `handle` computes for a normalized URL string:
`origin + "/?url=" + encodeURIComponent(normalized_str)`. -/
def cacheKeyFor (origin normalized_str : String) : String :=
  origin ++ "/?url=" ++ encodeURIComponent normalized_str

/-- The request data this worker reads: HTTP method, path, the `url`
and `skip_cache` query parameters, the `sec-fetch-mode`, `User-Agent`
and `Origin` headers, the Cloudflare colo and the serving origin. -/
structure RequestEnv where
  method : String
  pathname : String
  urlParam : Option String
  skipCacheParam : Option String
  secFetchMode : Option String
  userAgent : Option String
  originHeader : Option String
  colo : Option String
  origin : String
deriving DecidableEq

/-- One analytics data point as written by `writeAnalytics`:
index1 = hostname, blob1 = colo, blob2 = bot user agent, blob3 = request
origin, blob4 = request URL (for max redirects), double1 = cached,
double2 = errored, double3 = the safety flag, double4 = visited URL
count, double5 = is bot, double6 = http status code. -/
structure AnalyticsEvent where
  indexHostname : String
  blobColo : Option String
  blobAgent : Option String
  blobOrigin : Option String
  blobUrl : Option String
  dCached : Nat
  dErrored : Nat
  dFlagged : Nat
  dVisited : Nat
  dIsBot : Nat
  dStatus : Nat
deriving DecidableEq

/-- Evaluates `response?.urls?.length ?? 1`: the number of visited URLs, with 1
as the nullish default (an empty list still counts as 0). -/
def visitedCount (response : Option ResolveResult) : Nat :=
  match response with
  | some r =>
    match r.urls with
    | some us => us.length
    | none => 1
  | none => 1

/-- JavaScript truthiness of the `error` payload of a response. -/
def erroredFlag (response : Option ResolveResult) : Bool :=
  match response with
  | some r =>
    match r.errorMsg with
    | some m => m != ""
    | none => false
  | none => false

/-- Embeds `writeAnalytics` from `utilities`, with the `isbot` classifier as a
parameter (it is an external library).  Returns the data point written
to the analytics dataset. -/
def writeAnalytics (isBot : Option String → Bool) (request : RequestEnv)
    (target hostname : String) (cached : Bool)
    (response : Option ResolveResult) : AnalyticsEvent :=
  let agent := request.userAgent
  let is_bot := isBot agent
  let visited_urls := visitedCount response
  let save_url : Bool := decide (20 ≤ visited_urls)
  { indexHostname := hostname
    blobColo := request.colo
    blobAgent := if is_bot then agent else none
    blobOrigin := request.originHeader
    blobUrl := if save_url then some target else none
    dCached := if cached then 1 else 0
    dErrored := if erroredFlag response then 1 else 0
    dFlagged := if (response.map (fun r => r.flagged)).getD false then 1 else 0
    dVisited := visited_urls
    dIsBot := if is_bot then 1 else 0
    dStatus := (response.map (fun r => r.status)).getD 0 }

/-- The error `service.normalizeURL` can throw: a typed `BaseError`
carrying a message, or any other exception. -/
inductive NormErr where
  | invalid (msg : String)
  | crash
deriving DecidableEq

/-- A normalized URL: its string serialization and its hostname. -/
structure NormURL where
  str : String
  hostname : String
deriving DecidableEq

/-- The external collaborators `handle` and `fetch` call, as oracles:
the `isbot` classifier, `service.normalizeURL`, `caches.default.match`
(which may throw, and whose stored entries are the `ResolveResult`
payloads this worker previously wrote) and the resolve operation behind
`getLink` (keyed by the normalized URL string). -/
structure Oracles where
  isBot : Option String → Bool
  normalizeURL : String → Except NormErr NormURL
  cacheMatch : String → Except Unit (Option ResolveResult)
  resolveLink : String → Except Unit ResolveResult

/-- The observable side effects of one request, in program order. -/
inductive Effect where
  | normalizeE (raw : String)
  | cacheReadE (key : String)
  | resolveE (key : String)
  | analyticsE (ev : AnalyticsEvent)
  | cacheWriteE (key : String)
deriving DecidableEq

/-- The generic message of every 500 produced by `handle`. -/
def genericError : String := "An internal server error occurred."

/-- The cache-miss tail of `handle`: call the resolver (through the
dedup wrapper, recorded as a `resolveE` effect on the normalized URL
string), write an analytics event when the dataset is bound, wrap the
result as JSON with the cache lifetime header and schedule the cache
write via `ctx.waitUntil`. -/
def handleResolve (o : Oracles) (hasAnalytics : Bool) (request : RequestEnv)
    (target : String) (normalized : NormURL) (cache_url : String)
    (effs : List Effect) : Resp × List Effect :=
  match o.resolveLink normalized.str with
  | .error _ => (responseError 500 genericError, effs ++ [.resolveE normalized.str])
  | .ok result =>
    let effs := effs ++ [Effect.resolveE normalized.str]
    let effs := if hasAnalytics
      then effs ++ [Effect.analyticsE
        (writeAnalytics o.isBot request target normalized.hostname false (some result))]
      else effs
    let response := responseJSON (.result result)
      { headers := some [("Cache-Control", "public, max-age=1800")] }
    (response, effs ++ [Effect.cacheWriteE cache_url])

/-- Embeds `handle` from `src/index.ts`: normalize the target (400 on a typed
`BaseError`, 500 on any other exception), read the response cache
unless `skip_cache` (500 when the read throws), return a cached entry
as the previously stored JSON response, and otherwise resolve, record
analytics, store and respond. -/
def handle (o : Oracles) (hasAnalytics : Bool) (request : RequestEnv)
    (origin target : String) (skip_cache : Bool) : Resp × List Effect :=
  match o.normalizeURL target with
  | .error (.invalid msg) => (responseError 400 msg, [.normalizeE target])
  | .error .crash => (responseError 500 genericError, [.normalizeE target])
  | .ok normalized =>
    let cache_url := cacheKeyFor origin normalized.str
    if skip_cache then
      handleResolve o hasAnalytics request target normalized cache_url
        [.normalizeE target]
    else
      match o.cacheMatch cache_url with
      | .error _ =>
        (responseError 500 genericError, [.normalizeE target, .cacheReadE cache_url])
      | .ok (some cachedResult) =>
        let effs := [Effect.normalizeE target, Effect.cacheReadE cache_url]
        let effs := if hasAnalytics
          then effs ++ [Effect.analyticsE
            (writeAnalytics o.isBot request target normalized.hostname true (some cachedResult))]
          else effs
        (responseJSON (.result cachedResult)
          { headers := some [("Cache-Control", "public, max-age=1800")] }, effs)
      | .ok none =>
        handleResolve o hasAnalytics request target normalized cache_url
          [.normalizeE target, .cacheReadE cache_url]

/-- The documentation site a navigation-style request is redirected to. -/
def docsUrl : String := "https://docs.frankerfacez.com/dev/link-preview/robot"

/-- The `fetch` entry point: CORS preflight, the `/ips` and `/examples`
informational routes, 404 for any other path, the missing-`url`
handling (redirect on `sec-fetch-mode: navigate`, else 400), the
bot/skip-cache 403 gate, and finally `handle`. -/
def fetch (o : Oracles) (hasAnalytics : Bool) (request : RequestEnv) :
    Resp × List Effect :=
  if request.method == "OPTIONS" then
    ({ status := 204, headers := GLOBAL_HEADERS, body := none }, [])
  else if request.pathname == "/ips" then
    (responseJSON (.fixed "ips"), [])
  else if request.pathname == "/examples" then
    (responseJSON (.fixed "examples"), [])
  else if request.pathname != "/" then
    (responseError 404 "Not Found", [])
  else
    match request.urlParam with
    | none =>
      if request.secFetchMode == some "navigate" then
        (responseRedirect docsUrl, [])
      else
        (responseError 400 "No URL was provided.", [])
    | some target =>
      let skip_cache := request.skipCacheParam == some "1"
      if skip_cache && o.isBot request.userAgent then
        (responseError 403 "Bots are not allowed to use skip_cache at this time.", [])
      else
        handle o hasAnalytics request request.origin target skip_cache

/-!
The in-flight coordinator.  `getLink` in the source runs synchronously
from the map lookup to the `WAIT_MAP.set` (no `await` in between), so on
the single-threaded JavaScript runtime each call is one atomic step and a
group of concurrent callers is a sequence of such steps; the `finally`
callback attached to the shared promise is a later atomic step.  Promises
are modelled by numeric ids: two callers that receive the same id share
the same settlement value or failure.
-/

/-- The per-process state around `WAIT_MAP`: the map itself (key to
pending promise id), a supply of fresh promise ids, and the log of keys
for which `service.resolve` has been invoked. -/
structure DedupState where
  waitMap : List (String × Nat)
  nextId : Nat
  resolveLog : List String
deriving DecidableEq

def lookupMap (m : List (String × Nat)) (k : String) : Option Nat :=
  (m.find? (fun p => p.1 == k)).map (fun p => p.2)

/-- Embeds `Map.delete`: remove the entry for `k` (keys are unique in every
state reachable through `getLink`). -/
def eraseMap (m : List (String × Nat)) (k : String) : List (String × Nat) :=
  m.filter (fun p => p.1 != k)

/-- One `getLink` call from `src/index.ts`: return the pending promise
for `link` if one exists; otherwise invoke `service.resolve` (logged),
create a fresh promise and store it in `WAIT_MAP`. -/
def getLink (s : DedupState) (link : String) : DedupState × Nat :=
  match lookupMap s.waitMap link with
  | some pid => (s, pid)
  | none =>
    let pid := s.nextId
    ({ waitMap := (link, pid) :: s.waitMap,
       nextId := pid + 1,
       resolveLog := s.resolveLog ++ [link] }, pid)

/-- The `finally` callback attached to the shared promise: it deletes
`link` from `WAIT_MAP` regardless of whether the promise fulfilled or
rejected — the settlement outcome argument is unused, exactly as in the
source. -/
def settleLink (s : DedupState) (link : String)
    (_outcome : Except Unit ResolveResult) : DedupState :=
  { s with waitMap := eraseMap s.waitMap link }

/-- Runs `n` back-to-back `getLink` calls for the same key, returning the
final state and the list of promise ids handed to the callers. -/
def getLinkN : Nat → DedupState → String → DedupState × List Nat
  | 0, s, _ => (s, [])
  | n + 1, s, link =>
    let r1 := getLink s link
    let r2 := getLinkN n r1.1 link
    (r2.1, r1.2 :: r2.2)

/-!
The D1-backed cache adapter built in `buildConfig` when `CACHE_DB` is
bound.  A database is a list of rows of the `cache_entry` table;
`SELECT * FROM cache_entry WHERE key = ?` returns the first matching row
and leaves the database unchanged.
-/

/-- One row of the `cache_entry` table: key, serialized value, TTL in
seconds (nullable column) and creation time in milliseconds. -/
structure CacheRow where
  key : String
  value : String
  ttl : Option Nat
  created : Nat
deriving DecidableEq

abbrev CacheDB := List CacheRow

def dbSelect (db : CacheDB) (key : String) : Option CacheRow :=
  db.find? (fun r => r.key == key)

/-- Embeds `ON CONFLICT(key) DO UPDATE`: replace the row for the key in place,
or insert a fresh row. -/
def dbUpsert : CacheDB → CacheRow → CacheDB
  | [], row => [row]
  | r :: rest, row =>
    if r.key == row.key then row :: rest else r :: dbUpsert rest row

/-- Embeds `CacheResult` from `@ffz/link-service`. -/
structure CacheResult (α : Type) where
  hit : Bool
  value : Option α
deriving DecidableEq

/-- Embeds `CacheOptions` from `@ffz/link-service`: an optional TTL override. -/
structure CacheOptions where
  ttl : Option Nat := none
deriving DecidableEq

/-- The cache `get` from `buildConfig`.  `parse` embeds `JSON.parse`
(wrapped in try/catch, so a parse failure falls through to the miss
return); `dbFail` embeds a thrown D1 error, caught and degraded to a
null row; `now` is `Date.now()` in milliseconds.  The second component
is the database afterward: the operation only runs a SELECT, so it is
returned unchanged. -/
def cacheGet (parse : String → Option α) (db : CacheDB) (dbFail : Bool)
    (now : Nat) (key : String) (options : CacheOptions) :
    CacheResult α × CacheDB :=
  let result := if dbFail then none else dbSelect db key
  match result with
  | some row =>
    if row.key == key && row.value != "" then
      let ttl := options.ttl.getD (row.ttl.getD 3600)
      let expires := row.created + ttl * 1000
      if now < expires then
        match parse row.value with
        | some v => ({ hit := true, value := some v }, db)
        | none => ({ hit := false, value := none }, db)
      else
        ({ hit := false, value := none }, db)
    else
      ({ hit := false, value := none }, db)
  | none => ({ hit := false, value := none }, db)

/-- The cache `set` from `buildConfig`: upsert the serialized value with
the effective TTL (default 3600 seconds) and the current time. -/
def cacheSet (serialize : α → String) (db : CacheDB) (now : Nat)
    (key : String) (value : α) (options : CacheOptions) : CacheDB :=
  let ttl := options.ttl.getD 3600
  dbUpsert db { key := key, value := serialize value, ttl := some ttl, created := now }

/-!  Concrete fixtures used by witnesses and counterexamples. -/

def vu0 : VisitedUrl :=
  { url := "https://example.com/a", resolverName := some "Generic",
    flagged := false, shortened := false }

def sampleResult : ResolveResult :=
  { status := 200, flagged := false, urls := some [vu0], errorMsg := none }

def resMax : ResolveResult :=
  { status := 200, flagged := false, urls := some (List.replicate 20 vu0),
    errorMsg := none }

def req0 : RequestEnv :=
  { method := "GET", pathname := "/", urlParam := some "https://example.com/a",
    skipCacheParam := none, secFetchMode := none,
    userAgent := some "Mozilla/5.0", originHeader := some "https://www.frankerfacez.com",
    colo := some "ORD", origin := "https://link-service.workers.dev" }

def reqBotSkip : RequestEnv :=
  { req0 with skipCacheParam := some "1", userAgent := some "curl/8" }

def reqNav : RequestEnv :=
  { req0 with urlParam := none, secFetchMode := some "navigate" }

def reqNoNav : RequestEnv :=
  { req0 with urlParam := none, secFetchMode := none }

def oracleCacheErr : Oracles :=
  { isBot := fun _ => false,
    normalizeURL := fun raw => .ok { str := raw, hostname := "example.com" },
    cacheMatch := fun _ => .error (),
    resolveLink := fun _ => .ok sampleResult }

def oracleBot : Oracles :=
  { isBot := fun _ => true,
    normalizeURL := fun raw => .ok { str := raw, hostname := "example.com" },
    cacheMatch := fun _ => .ok none,
    resolveLink := fun _ => .ok sampleResult }

def oracleResolveErr : Oracles :=
  { isBot := fun _ => false,
    normalizeURL := fun raw => .ok { str := raw, hostname := "example.com" },
    cacheMatch := fun _ => .ok none,
    resolveLink := fun _ => .error () }

def s0 : DedupState := { waitMap := [], nextId := 0, resolveLog := [] }

/-- An oracle whose normalizer sends every surface form of the example
URL to one canonical value, as the collaborator contract promises. -/
def oracleNorm : Oracles :=
  { isBot := fun _ => false,
    normalizeURL := fun _ =>
      .ok { str := "http://example.com/a", hostname := "example.com" },
    cacheMatch := fun _ => .ok none,
    resolveLink := fun _ => .ok sampleResult }

/-!  Lemmas about the in-flight map. -/

theorem lookupMap_cons_self (m : List (String × Nat)) (k : String) (v : Nat) :
    lookupMap ((k, v) :: m) k = some v := by
  simp [lookupMap]

theorem getLinkN_of_mem (n : Nat) (s : DedupState) (link : String) (pid : Nat)
    (h : lookupMap s.waitMap link = some pid) :
    getLinkN n s link = (s, List.replicate n pid) := by
  induction n with
  | zero => simp [getLinkN]
  | succ n ih => simp [getLinkN, getLink, h, ih, List.replicate]

theorem lookupMap_erase (m : List (String × Nat)) (k : String) :
    lookupMap (eraseMap m k) k = none := by
  induction m with
  | nil => rfl
  | cons p rest ih =>
    by_cases hp : p.1 = k
    · rw [show eraseMap (p :: rest) k = eraseMap rest k by simp [eraseMap, hp]]
      exact ih
    · rw [show eraseMap (p :: rest) k = p :: eraseMap rest k by simp [eraseMap, hp]]
      rw [show lookupMap (p :: eraseMap rest k) k = lookupMap (eraseMap rest k) k by
        simp [lookupMap, hp]]
      exact ih

/-- C1: for `n + 1` concurrent `getLink` calls for the same normalized
URL string issued while no entry for that key is in flight, the
underlying resolve operation is invoked exactly once (the resolve log
grows by exactly one entry), every caller receives the same shared
promise, the key is pending afterward, and once the shared promise
settles — with either outcome — the map holds no entry for the key. -/
theorem C1_inflight_dedup (n : Nat) (s : DedupState) (link : String)
    (outcome : Except Unit ResolveResult)
    (h : lookupMap s.waitMap link = none) :
    (getLinkN (n + 1) s link).2 = List.replicate (n + 1) s.nextId ∧
    (getLinkN (n + 1) s link).1.resolveLog = s.resolveLog ++ [link] ∧
    lookupMap (getLinkN (n + 1) s link).1.waitMap link = some s.nextId ∧
    lookupMap (settleLink (getLinkN (n + 1) s link).1 link outcome).waitMap link
      = none := by
  have hstep : getLink s link =
      ({ waitMap := (link, s.nextId) :: s.waitMap, nextId := s.nextId + 1,
         resolveLog := s.resolveLog ++ [link] }, s.nextId) := by
    simp [getLink, h]
  have hmem : lookupMap ((link, s.nextId) :: s.waitMap) link = some s.nextId :=
    lookupMap_cons_self _ _ _
  have hrest := getLinkN_of_mem n
    { waitMap := (link, s.nextId) :: s.waitMap, nextId := s.nextId + 1,
      resolveLog := s.resolveLog ++ [link] } link s.nextId hmem
  refine ⟨?_, ?_, ?_, ?_⟩ <;>
    simp [getLinkN, hstep, hrest, settleLink, hmem, lookupMap_erase, List.replicate]

/-- Witness for C1 at three concurrent callers and a rejected promise. -/
theorem C1_inflight_dedup_witness :
    (getLinkN (2 + 1) s0 "https://example.com/").2 =
      List.replicate (2 + 1) s0.nextId ∧
    (getLinkN (2 + 1) s0 "https://example.com/").1.resolveLog =
      s0.resolveLog ++ ["https://example.com/"] ∧
    lookupMap (getLinkN (2 + 1) s0 "https://example.com/").1.waitMap
      "https://example.com/" = some s0.nextId ∧
    lookupMap (settleLink (getLinkN (2 + 1) s0 "https://example.com/").1
      "https://example.com/" (.error ())).waitMap "https://example.com/" = none :=
  C1_inflight_dedup 2 s0 "https://example.com/" (.error ()) rfl

/-- C2 (counterexample): the claim says a failure of the response-cache
read never fails the request and that the request then proceeds down the
Resolver path.  At this concrete input the cache read throws and `handle`
instead returns a client-visible 500 structured error, and the trace
contains no resolve invocation. -/
theorem C2_counterexample :
    (handle oracleCacheErr true req0 "https://link-service.workers.dev"
      "https://example.com/a" false).1.status = 500 ∧
    (handle oracleCacheErr true req0 "https://link-service.workers.dev"
      "https://example.com/a" false).1.body =
        some (.errObj 500 genericError) ∧
    (handle oracleCacheErr true req0 "https://link-service.workers.dev"
      "https://example.com/a" false).2 =
      [.normalizeE "https://example.com/a",
       .cacheReadE (cacheKeyFor "https://link-service.workers.dev"
         "https://example.com/a")] :=
  ⟨rfl, rfl, rfl⟩

/-- C2 (amended): when the response-cache read throws on a non-bypassed
request, `handle` logs the error and fails the request with the generic
500 structured error; the Resolver is not consulted and the trace stops
at the cache read. -/
theorem C2_cache_read_failure_500 (o : Oracles) (hasAnalytics : Bool)
    (request : RequestEnv) (origin target : String) (u : NormURL)
    (hn : o.normalizeURL target = .ok u)
    (hc : o.cacheMatch (cacheKeyFor origin u.str) = .error ()) :
    handle o hasAnalytics request origin target false =
      (responseError 500 genericError,
       [.normalizeE target, .cacheReadE (cacheKeyFor origin u.str)]) := by
  simp [handle, hn, hc]

/-- Witness for the amended C2. -/
theorem C2_cache_read_failure_500_witness :
    handle oracleCacheErr true req0 "https://link-service.workers.dev"
      "https://example.com/a" false =
      (responseError 500 genericError,
       [.normalizeE "https://example.com/a",
        .cacheReadE (cacheKeyFor "https://link-service.workers.dev"
          "https://example.com/a")]) :=
  C2_cache_read_failure_500 oracleCacheErr true req0
    "https://link-service.workers.dev" "https://example.com/a"
    { str := "https://example.com/a", hostname := "example.com" } rfl rfl

/-- C3: a resolve-route request with `skip_cache=1` whose user agent is
classified as a bot receives the 403 structured error and produces no
side effects at all — no normalize, no cache read, no resolve call. -/
theorem C3_bot_skip_cache_403 (o : Oracles) (hasAnalytics : Bool)
    (request : RequestEnv) (target : String)
    (hm : request.method ≠ "OPTIONS")
    (hp : request.pathname = "/")
    (hu : request.urlParam = some target)
    (hs : request.skipCacheParam = some "1")
    (hb : o.isBot request.userAgent = true) :
    fetch o hasAnalytics request =
      (responseError 403 "Bots are not allowed to use skip_cache at this time.",
       []) := by
  simp [fetch, hm, hp, hu, hs, hb]

/-- Witness for C3. -/
theorem C3_bot_skip_cache_403_witness :
    fetch oracleBot true reqBotSkip =
      (responseError 403 "Bots are not allowed to use skip_cache at this time.",
       []) :=
  C3_bot_skip_cache_403 oracleBot true reqBotSkip "https://example.com/a"
    (by decide) rfl rfl rfl rfl

/-- C4: a `skip_cache` request from a non-bot skips the cache lookup
entirely (no cache-read effect for any key), yet after a successful
resolve the result is still scheduled for a cache write under the
normalized cache key, and the response is the fresh JSON result with the
cache lifetime header. -/
theorem C4_skip_cache_still_writes (o : Oracles) (hasAnalytics : Bool)
    (request : RequestEnv) (origin target : String) (u : NormURL)
    (r : ResolveResult)
    (hn : o.normalizeURL target = .ok u)
    (hr : o.resolveLink u.str = .ok r) :
    (∀ k, Effect.cacheReadE k ∉ (handle o hasAnalytics request origin target true).2) ∧
    Effect.cacheWriteE (cacheKeyFor origin u.str) ∈
      (handle o hasAnalytics request origin target true).2 ∧
    (handle o hasAnalytics request origin target true).1 =
      responseJSON (.result r)
        { headers := some [("Cache-Control", "public, max-age=1800")] } := by
  cases hasAnalytics <;>
    simp [handle, handleResolve, hn, hr]

/-- Witness for C4: the cache write is present, a cache read is absent,
and the response is the fresh JSON result. -/
theorem C4_skip_cache_still_writes_witness :
    Effect.cacheWriteE (cacheKeyFor "https://link-service.workers.dev"
        "https://example.com/a") ∈
      (handle oracleCacheErr true req0 "https://link-service.workers.dev"
        "https://example.com/a" true).2 ∧
    Effect.cacheReadE "https://link-service.workers.dev/?url=x" ∉
      (handle oracleCacheErr true req0 "https://link-service.workers.dev"
        "https://example.com/a" true).2 ∧
    (handle oracleCacheErr true req0 "https://link-service.workers.dev"
      "https://example.com/a" true).1 =
      responseJSON (.result sampleResult)
        { headers := some [("Cache-Control", "public, max-age=1800")] } :=
  ⟨(C4_skip_cache_still_writes oracleCacheErr true req0
      "https://link-service.workers.dev" "https://example.com/a"
      { str := "https://example.com/a", hostname := "example.com" }
      sampleResult rfl rfl).2.1,
   (C4_skip_cache_still_writes oracleCacheErr true req0
      "https://link-service.workers.dev" "https://example.com/a"
      { str := "https://example.com/a", hostname := "example.com" }
      sampleResult rfl rfl).1 "https://link-service.workers.dev/?url=x",
   (C4_skip_cache_still_writes oracleCacheErr true req0
      "https://link-service.workers.dev" "https://example.com/a"
      { str := "https://example.com/a", hostname := "example.com" }
      sampleResult rfl rfl).2.2⟩

/-- The cache keys (read and write) appearing in a trace. -/
def cacheKeysOf (effs : List Effect) : List String :=
  effs.filterMap fun e => match e with
    | .cacheReadE k => some k
    | .cacheWriteE k => some k
    | _ => none

/-- The in-flight deduplication keys appearing in a trace. -/
def dedupKeysOf (effs : List Effect) : List String :=
  effs.filterMap fun e => match e with
    | .resolveE k => some k
    | _ => none

/-- C5: two raw targets that normalize to the same `NormURL` make
`handle` use identical cache keys and identical dedup keys, and every
such key is computed from the normalized string serialization alone
(plus the serving origin for the cache key), never from the raw input. -/
theorem C5_keys_from_normalized (o : Oracles) (hA : Bool)
    (req1 req2 : RequestEnv) (origin t1 t2 : String) (skip : Bool)
    (u : NormURL)
    (h1 : o.normalizeURL t1 = .ok u) (h2 : o.normalizeURL t2 = .ok u) :
    cacheKeysOf (handle o hA req1 origin t1 skip).2 =
      cacheKeysOf (handle o hA req2 origin t2 skip).2 ∧
    dedupKeysOf (handle o hA req1 origin t1 skip).2 =
      dedupKeysOf (handle o hA req2 origin t2 skip).2 ∧
    (∀ k ∈ cacheKeysOf (handle o hA req1 origin t1 skip).2,
      k = cacheKeyFor origin u.str) ∧
    (∀ k ∈ dedupKeysOf (handle o hA req1 origin t1 skip).2, k = u.str) := by
  cases skip <;>
    rcases hm : o.cacheMatch (cacheKeyFor origin u.str) with e | (_ | mr) <;>
    rcases hr : o.resolveLink u.str with er | rr <;>
    cases hA <;>
    simp [handle, handleResolve, cacheKeysOf, dedupKeysOf, h1, h2, hm, hr]

/-- Witness for C5: two surface forms of the same URL produce the same
keys, each equal to the key derived from the normalized serialization. -/
theorem C5_keys_from_normalized_witness :
    cacheKeysOf (handle oracleNorm true req0
      "https://link-service.workers.dev" "HTTP://EXAMPLE.COM/a" false).2 =
      cacheKeysOf (handle oracleNorm true req0
        "https://link-service.workers.dev" "http://example.com/a/" false).2 ∧
    dedupKeysOf (handle oracleNorm true req0
      "https://link-service.workers.dev" "HTTP://EXAMPLE.COM/a" false).2 =
      dedupKeysOf (handle oracleNorm true req0
        "https://link-service.workers.dev" "http://example.com/a/" false).2 ∧
    "https://link-service.workers.dev/?url=http%3A%2F%2Fexample.com%2Fa" =
      cacheKeyFor "https://link-service.workers.dev" "http://example.com/a" :=
  ⟨(C5_keys_from_normalized oracleNorm true req0 req0
      "https://link-service.workers.dev" "HTTP://EXAMPLE.COM/a"
      "http://example.com/a/" false
      { str := "http://example.com/a", hostname := "example.com" }
      rfl rfl).1,
   (C5_keys_from_normalized oracleNorm true req0 req0
      "https://link-service.workers.dev" "HTTP://EXAMPLE.COM/a"
      "http://example.com/a/" false
      { str := "http://example.com/a", hostname := "example.com" }
      rfl rfl).2.1,
   (C5_keys_from_normalized oracleNorm true req0 req0
      "https://link-service.workers.dev" "HTTP://EXAMPLE.COM/a"
      "http://example.com/a/" false
      { str := "http://example.com/a", hostname := "example.com" }
      rfl rfl).2.2.1
     "https://link-service.workers.dev/?url=http%3A%2F%2Fexample.com%2Fa"
     (by decide)⟩

/-- C6: the analytics event carries the full target URL exactly when
the visited-URL count reaches 20; below the threshold only the hostname
identifies the target, and the literal user-agent string is stored only
for a bot classification. -/
theorem C6_analytics_privacy (isBot : Option String → Bool)
    (request : RequestEnv) (target hostname : String) (cached : Bool)
    (response : Option ResolveResult) :
    ((writeAnalytics isBot request target hostname cached response).blobUrl =
        some target ↔ 20 ≤ visitedCount response) ∧
    (visitedCount response < 20 →
      (writeAnalytics isBot request target hostname cached response).blobUrl =
        none) ∧
    (writeAnalytics isBot request target hostname cached
      response).indexHostname = hostname ∧
    (isBot request.userAgent = true →
      (writeAnalytics isBot request target hostname cached response).blobAgent =
        request.userAgent) ∧
    (isBot request.userAgent = false →
      (writeAnalytics isBot request target hostname cached response).blobAgent =
        none) := by
  by_cases h20 : 20 ≤ visitedCount response <;>
    by_cases hb : isBot request.userAgent = true <;>
    simp_all [writeAnalytics]

/-- Witness for C6: at 20 visited URLs the full target is stored, at one
visited URL it is not; a bot agent is stored literally, a non-bot agent
is dropped. -/
theorem C6_analytics_privacy_witness :
    (writeAnalytics oracleBot.isBot reqBotSkip "https://example.com/a"
      "example.com" false (some resMax)).blobUrl = some "https://example.com/a" ∧
    (writeAnalytics oracleCacheErr.isBot req0 "https://example.com/a"
      "example.com" true (some sampleResult)).blobUrl = none ∧
    (writeAnalytics oracleBot.isBot reqBotSkip "https://example.com/a"
      "example.com" false (some resMax)).blobAgent = some "curl/8" ∧
    (writeAnalytics oracleCacheErr.isBot req0 "https://example.com/a"
      "example.com" true (some sampleResult)).blobAgent = none :=
  ⟨(C6_analytics_privacy oracleBot.isBot reqBotSkip "https://example.com/a"
      "example.com" false (some resMax)).1.mpr (by decide),
   (C6_analytics_privacy oracleCacheErr.isBot req0 "https://example.com/a"
      "example.com" true (some sampleResult)).2.1 (by decide),
   (C6_analytics_privacy oracleBot.isBot reqBotSkip "https://example.com/a"
      "example.com" false (some resMax)).2.2.2.1 rfl,
   (C6_analytics_privacy oracleCacheErr.isBot req0 "https://example.com/a"
      "example.com" true (some sampleResult)).2.2.2.2 rfl⟩

/-- C7: a GET on the resolve route without a `url` parameter redirects
to the documentation site when the request carries
`sec-fetch-mode: navigate`, and otherwise yields the 400 structured
error saying that no URL was provided. -/
theorem C7_missing_url (o : Oracles) (hA : Bool) (request : RequestEnv)
    (hm : request.method = "GET")
    (hp : request.pathname = "/")
    (hu : request.urlParam = none) :
    (request.secFetchMode = some "navigate" →
      fetch o hA request = (responseRedirect docsUrl, [])) ∧
    (request.secFetchMode ≠ some "navigate" →
      fetch o hA request = (responseError 400 "No URL was provided.", [])) := by
  constructor <;> intro h <;> simp [fetch, hm, hp, hu, h]

/-- Witness for C7: one navigation-style request, one plain request. -/
theorem C7_missing_url_witness :
    fetch oracleBot true reqNav = (responseRedirect docsUrl, []) ∧
    fetch oracleBot true reqNoNav =
      (responseError 400 "No URL was provided.", []) :=
  ⟨(C7_missing_url oracleBot true reqNav rfl rfl rfl).1 rfl,
   (C7_missing_url oracleBot true reqNoNav rfl rfl rfl).2 (by decide)⟩

/-- C8: the D1 cache evaluates expiry lazily at read time.  For a
stored row with a parseable value and its own TTL column (no caller
override): when the age exceeds the TTL the read reports a miss and the
row stays in the backing store untouched; when the entry is younger
than its TTL the read reports a hit carrying the deserialized value,
again without touching the store. -/
theorem C8_lazy_expiry (parse : String → Option α) (db : CacheDB)
    (now : Nat) (key : String) (row : CacheRow) (t : Nat) (v : α)
    (hrow : dbSelect db key = some row)
    (hval : row.value ≠ "")
    (httl : row.ttl = some t)
    (hparse : parse row.value = some v) :
    (row.created + t * 1000 < now →
      cacheGet parse db false now key {} =
        ({ hit := false, value := none }, db)) ∧
    (now < row.created + t * 1000 →
      cacheGet parse db false now key {} =
        ({ hit := true, value := some v }, db)) := by
  have hfind : List.find? (fun r => r.key == key) db = some row := by
    simpa [dbSelect] using hrow
  have hk : row.key = key := by
    have hp := List.find?_some hfind
    simpa using hp
  constructor
  · intro hlt
    have hnot : ¬ (now < row.created + t * 1000) := by omega
    simp [cacheGet, hrow, hk, hval, httl, hnot]
  · intro hlt
    simp [cacheGet, hrow, hk, hval, httl, hlt, hparse]

/-- One concrete row for the C8 witness. -/
def row0 : CacheRow :=
  { key := "fedi:example.com", value := "7", ttl := some 60, created := 1000 }

/-- A concrete deserializer for the C8 witness. -/
def parse0 : String → Option Nat :=
  fun s => if s = "7" then some 7 else none

/-- Witness for C8: at 62001 ms the 60-second entry created at 1000 ms
is a miss, at 2000 ms it is a hit with the parsed value; the store is
returned unchanged both times. -/
theorem C8_lazy_expiry_witness :
    cacheGet parse0 [row0] false 62001 "fedi:example.com" {} =
      ({ hit := false, value := none }, [row0]) ∧
    cacheGet parse0 [row0] false 2000 "fedi:example.com" {} =
      ({ hit := true, value := some 7 }, [row0]) :=
  ⟨(C8_lazy_expiry parse0 [row0] 62001 "fedi:example.com" row0 60 7
      (by decide) (by decide) rfl (by decide)).1 (by decide),
   (C8_lazy_expiry parse0 [row0] 2000 "fedi:example.com" row0 60 7
      (by decide) (by decide) rfl (by decide)).2 (by decide)⟩

/-- Every 500 that `handle` produces carries the one generic error body. -/
theorem handle_500_generic (o : Oracles) (hA : Bool) (request : RequestEnv)
    (origin target : String) (skip : Bool)
    (h : (handle o hA request origin target skip).1.status = 500) :
    (handle o hA request origin target skip).1.body =
      some (.errObj 500 genericError) := by
  rcases hn : o.normalizeURL target with ne | u
  · cases ne <;> simp_all [handle, responseError, responseJSON]
  · rcases hm : o.cacheMatch (cacheKeyFor origin u.str) with e | (_ | mr) <;>
      rcases hr : o.resolveLink u.str with er | rr <;>
      cases skip <;> cases hA <;>
      simp_all [handle, handleResolve, responseError, responseJSON]

/-- C9: every 500 response the worker produces — normalization crash
outside the typed error class, response-cache read failure, or resolver
failure — carries the identical generic client-facing error body; the
specific underlying error never reaches the response (the error values
are opaque to the response builder). -/
theorem C9_identical_generic_500 (o : Oracles) (hA : Bool)
    (request : RequestEnv)
    (h : (fetch o hA request).1.status = 500) :
    (fetch o hA request).1.body = some (.errObj 500 genericError) := by
  by_cases h1 : request.method == "OPTIONS"
  · simp_all [fetch]
  · by_cases h2 : request.pathname == "/ips"
    · simp_all [fetch, responseJSON]
    · by_cases h3 : request.pathname == "/examples"
      · simp_all [fetch, responseJSON]
      · by_cases h4 : request.pathname != "/"
        · simp_all [fetch, responseError, responseJSON]
        · rcases hu : request.urlParam with _ | target
          · by_cases h5 : request.secFetchMode == some "navigate" <;>
              simp_all [fetch, responseRedirect, responseError, responseJSON]
          · by_cases h6 : (request.skipCacheParam == some "1") &&
                o.isBot request.userAgent
            · simp_all [fetch, responseError, responseJSON]
            · have hf : fetch o hA request =
                  handle o hA request request.origin target
                    (request.skipCacheParam == some "1") := by
                simp [fetch, h1, h2, h3, h4, hu, h6]
              rw [hf] at h ⊢
              exact handle_500_generic o hA request request.origin target _ h

/-- Witness for C9: a resolver failure yields a 500, and its body is the
generic error object. -/
theorem C9_identical_generic_500_witness :
    (fetch oracleResolveErr true req0).1.body =
      some (.errObj 500 genericError) :=
  C9_identical_generic_500 oracleResolveErr true req0 rfl

/-!  Lemmas about the header-record operations. -/

theorem getH_setH_self (hs : HeaderMap) (k v : String) :
    getH (setH hs k v) k = some v := by
  induction hs with
  | nil => simp [setH, getH]
  | cons p rest ih =>
    by_cases hp : p.1 = k
    · simp [setH, hp, getH]
    · rw [show setH (p :: rest) k v = p :: setH rest k v by simp [setH, hp]]
      rw [show getH (p :: setH rest k v) k = getH (setH rest k v) k by
        simp [getH, hp]]
      exact ih

theorem getH_setH_ne (hs : HeaderMap) (k k2 v : String) (hne : k2 ≠ k) :
    getH (setH hs k v) k2 = getH hs k2 := by
  induction hs with
  | nil => simp [setH, getH, Ne.symm hne]
  | cons p rest ih =>
    by_cases hp : p.1 = k
    · rw [show setH (p :: rest) k v = (k, v) :: rest by simp [setH, hp]]
      simp [getH, Ne.symm hne, hp]
    · rw [show setH (p :: rest) k v = p :: setH rest k v by simp [setH, hp]]
      by_cases hp2 : p.1 = k2
      · simp [getH, hp2]
      · rw [show getH (p :: setH rest k v) k2 = getH (setH rest k v) k2 by
          simp [getH, hp2]]
        rw [show getH (p :: rest) k2 = getH rest k2 by simp [getH, hp2]]
        exact ih

/-- The header-merging fold over an arbitrary list of baseline entries. -/
def mergeInto (gs hs : HeaderMap) : HeaderMap :=
  gs.foldl (fun acc p => if truthyH acc p.1 then acc else setH acc p.1 p.2) hs

/-- A caller entry with a non-empty value survives the merging fold. -/
theorem mergeInto_preserve (gs : HeaderMap) (hs : HeaderMap) (k v : String)
    (h : getH hs k = some v) (hv : v ≠ "") :
    getH (mergeInto gs hs) k = some v := by
  induction gs generalizing hs with
  | nil => simpa [mergeInto] using h
  | cons g rest ih =>
    have hstep : getH (if truthyH hs g.1 then hs else setH hs g.1 g.2) k
        = some v := by
      by_cases hk : g.1 = k
      · have ht : truthyH hs g.1 = true := by
          simp [truthyH, hk, h, hv]
        simpa [ht] using h
      · by_cases ht : truthyH hs g.1 = true
        · simpa [ht] using h
        · rw [show (if truthyH hs g.1 then hs else setH hs g.1 g.2)
              = setH hs g.1 g.2 by simp [ht]]
          rw [getH_setH_ne hs g.1 k g.2 (fun hh => hk hh.symm)]
          exact h
    rw [show mergeInto (g :: rest) hs
        = mergeInto rest (if truthyH hs g.1 then hs else setH hs g.1 g.2)
      from rfl]
    exact ih _ hstep

/-- C10 (counterexample): the caller sets
`Access-Control-Allow-Origin` to the empty string — so the key is set —
yet `responseJSON` overrides it with the baseline value, because the
source merges on JavaScript truthiness, not on key presence. -/
theorem C10_counterexample :
    getH [("Access-Control-Allow-Origin", "")] "Access-Control-Allow-Origin"
      = some "" ∧
    getH (responseJSON (.fixed "x")
        { headers := some [("Access-Control-Allow-Origin", "")] }).headers
      "Access-Control-Allow-Origin" = some "*" :=
  ⟨rfl, rfl⟩

/-- C10 (amended): baseline headers are merged into the keys the caller
left absent or set to the empty string (JavaScript-falsy); a
caller-provided non-empty value wins for its key; `Content-Type` is then
unconditionally overridden with the JSON content type. -/
theorem C10_header_merge (obj : JPayload) (opts : SimpleResponseInit)
    (hs : HeaderMap) (k v : String)
    (hh : opts.headers = some hs)
    (hk : getH hs k = some v) (hv : v ≠ "") (hct : k ≠ "Content-Type") :
    getH (responseJSON obj opts).headers k = some v ∧
    getH (responseJSON obj opts).headers "Content-Type" =
      some "application/json;charset=UTF-8" ∧
    (truthyH hs "Access-Control-Allow-Origin" = false →
      getH (responseJSON obj opts).headers "Access-Control-Allow-Origin" =
        some "*") := by
  have hhd : (responseJSON obj opts).headers
      = setH (mergeGlobal hs) "Content-Type" "application/json;charset=UTF-8" := by
    simp [responseJSON, hh]
  refine ⟨?_, ?_, ?_⟩
  · rw [hhd, getH_setH_ne _ _ _ _ hct]
    exact mergeInto_preserve GLOBAL_HEADERS hs k v hk hv
  · rw [hhd]
    exact getH_setH_self _ _ _
  · intro ht
    have h1 : getH (setH hs "Access-Control-Allow-Origin" "*")
        "Access-Control-Allow-Origin" = some "*" := getH_setH_self hs _ _
    have h2 := mergeInto_preserve
      [("Access-Control-Allow-Methods", "GET, OPTIONS"),
       ("Access-Control-Allow-Headers", "*")]
      (setH hs "Access-Control-Allow-Origin" "*")
      "Access-Control-Allow-Origin" "*" h1 (by decide)
    have hm : mergeGlobal hs = mergeInto
        [("Access-Control-Allow-Methods", "GET, OPTIONS"),
         ("Access-Control-Allow-Headers", "*")]
        (setH hs "Access-Control-Allow-Origin" "*") := by
      simp [mergeGlobal, mergeInto, GLOBAL_HEADERS, List.foldl, ht]
    rw [hhd, getH_setH_ne _ _ _ _ (by decide), hm]
    exact h2

/-- Witness for the amended C10: a non-empty caller header survives,
`Content-Type` is forced, and the falsy CORS entry gets the baseline. -/
theorem C10_header_merge_witness :
    getH (responseJSON (.fixed "x")
        { headers := some [("X-Custom", "yes"),
                           ("Access-Control-Allow-Origin", "")] }).headers
      "X-Custom" = some "yes" ∧
    getH (responseJSON (.fixed "x")
        { headers := some [("X-Custom", "yes"),
                           ("Access-Control-Allow-Origin", "")] }).headers
      "Content-Type" = some "application/json;charset=UTF-8" ∧
    getH (responseJSON (.fixed "x")
        { headers := some [("X-Custom", "yes"),
                           ("Access-Control-Allow-Origin", "")] }).headers
      "Access-Control-Allow-Origin" = some "*" :=
  ⟨(C10_header_merge (.fixed "x")
      { headers := some [("X-Custom", "yes"),
                         ("Access-Control-Allow-Origin", "")] }
      [("X-Custom", "yes"), ("Access-Control-Allow-Origin", "")]
      "X-Custom" "yes" rfl rfl (by decide) (by decide)).1,
   (C10_header_merge (.fixed "x")
      { headers := some [("X-Custom", "yes"),
                         ("Access-Control-Allow-Origin", "")] }
      [("X-Custom", "yes"), ("Access-Control-Allow-Origin", "")]
      "X-Custom" "yes" rfl rfl (by decide) (by decide)).2.1,
   (C10_header_merge (.fixed "x")
      { headers := some [("X-Custom", "yes"),
                         ("Access-Control-Allow-Origin", "")] }
      [("X-Custom", "yes"), ("Access-Control-Allow-Origin", "")]
      "X-Custom" "yes" rfl rfl (by decide) (by decide)).2.2 rfl⟩

end LinkWorker
